import Mathlib

/-!
# Verification of the IP-geolocation fallback-lookup subsystem

Shallow embedding of `mcp_servers/ip_location_server.py`: the address
validator, the two provider adapters (ip-api.com primary, ipinfo.io backup),
the fallback orchestrator, the formatter and the self-IP resolver.

Modelling conventions:
* Python dictionaries holding JSON data become association lists over a small
  JSON value type `JVal`; `dict.get` becomes `dictGet` / `dictGetD`.
* JSON numbers (including latitude/longitude floats) are modelled as `Int`;
  the claims only inspect success/failure structure, string fields and
  comparison with zero, never float arithmetic or float rendering.
* Each outbound HTTP interaction is abstracted by an `HttpOutcome` input
  describing what the network and remote service did; the adapter code that
  reacts to that outcome is translated faithfully from the source.
* Python string `split` is modelled by the structurally recursive
  `splitOnChar` on character lists (all separators used are single
  characters).
* The anchor `^` of the source's regexes is begin-of-string (`re.match`
  anchors there anyway); the anchor `$` follows Python's `re` semantics:
  it matches at the end of the string or just before a newline that ends
  the string, so each anchored pattern also accepts its body followed by
  one final newline (`dollarAnchored`).
-/

namespace IpServer

/-- A JSON value as produced by the remote providers and stored in the
Python result dictionaries.  Numbers are modelled as integers. -/
inductive JVal where
  | str (s : String)
  | num (n : Int)
  | bool (b : Bool)
  | null
deriving DecidableEq, Repr

/-- A Python `Dict[str, Any]` holding JSON data: an association list with
(first-match) lookup. -/
abbrev Dict := List (String × JVal)

/-- `d.get(k)` → `none` when the key is absent. -/
def dictGet : Dict → String → Option JVal
  | [], _ => none
  | (k, v) :: rest, key => if k = key then some v else dictGet rest key

/-- `d.get(k, default)`. -/
def dictGetD (d : Dict) (k : String) (dflt : JVal) : JVal :=
  (dictGet d k).getD dflt

/-- Python truthiness of an optional JSON value (`None`, `False`, `0`, `""`
and a missing key are falsy). -/
def truthy : Option JVal → Bool
  | none => false
  | some JVal.null => false
  | some (JVal.bool b) => b
  | some (JVal.num n) => decide (n ≠ 0)
  | some (JVal.str s) => decide (s ≠ "")

/-- Python `str()` applied to a JSON value, as used by f-string
interpolation. -/
def pyStr : JVal → String
  | JVal.str s => s
  | JVal.num n => toString n
  | JVal.bool b => if b then "True" else "False"
  | JVal.null => "None"

/-- Python `v != 0` for a JSON value `v` (`True == 1`, `False == 0`;
strings and `None` never equal `0`). -/
def pyNeZero : JVal → Bool
  | JVal.num n => decide (n ≠ 0)
  | JVal.bool b => b
  | JVal.str _ => true
  | JVal.null => true

/-- Python `str.split(sep)` for a single-character separator, on character
lists (structurally recursive so that concrete instances evaluate). -/
def splitOnChar (sep : Char) : List Char → List (List Char)
  | [] => [[]]
  | c :: cs =>
    if c = sep then [] :: splitOnChar sep cs
    else
      match splitOnChar sep cs with
      | [] => [[c]]
      | t :: ts => (c :: t) :: ts

/-- The regex character class `[0-9]` (code points 48–57). -/
def isDigitCh (c : Char) : Bool :=
  decide (48 ≤ c.toNat ∧ c.toNat ≤ 57)

/-- The regex character class `[0-9a-fA-F]`. -/
def isHexCh (c : Char) : Bool :=
  decide (48 ≤ c.toNat ∧ c.toNat ≤ 57) ||
  decide (97 ≤ c.toNat ∧ c.toNat ≤ 102) ||
  decide (65 ≤ c.toNat ∧ c.toNat ≤ 70)

/-- Full-token match of one group of the source's IPv4 regex,
`25[0-5]|2[0-4][0-9]|[01]?[0-9][0-9]?`, against a complete dot-delimited
token.  Because the group's character classes contain no `.`, a group can
never match across a dot nor stop strictly inside a token (the regex would
then require a `.` or the end of string where a digit stands), so matching
the whole token against the alternation is exactly the regex's behaviour.
Per token length the alternation reads: one digit; two digits (the branch
`[01]?[0-9][0-9]?` with the optional `[01]` either used or not); for three
characters, the three branches as written, with `[01]` forced present. -/
def ipv4OctetMatch (cs : List Char) : Bool :=
  match cs with
  | [d1] => isDigitCh d1
  | [d1, d2] => isDigitCh d1 && isDigitCh d2
  | [d1, d2, d3] =>
      (decide (d1.toNat = 50) && decide (d2.toNat = 53) &&
        decide (48 ≤ d3.toNat ∧ d3.toNat ≤ 53)) ||
      (decide (d1.toNat = 50) && decide (48 ≤ d2.toNat ∧ d2.toNat ≤ 52) &&
        isDigitCh d3) ||
      ((decide (d1.toNat = 48) || decide (d1.toNat = 49)) &&
        isDigitCh d2 && isDigitCh d3)
  | _ => false

/-- The body (between `^` and `$`) of the source's IPv4 regex
`^(?:(?:25[0-5]|2[0-4][0-9]|[01]?[0-9][0-9]?)\.){3}(?:25[0-5]|...)$`,
matched against a whole character sequence: exactly four dot-separated
tokens, each fully matching the octet group. -/
def ipv4Core (cs : List Char) : Bool :=
  let parts := splitOnChar '.' cs
  decide (parts.length = 4) && parts.all ipv4OctetMatch

/-- Python `re` semantics of `re.match(r'^body$', s)` (no MULTILINE):
`$` matches at the end of the string or just before a newline that ends
the string, so the pattern accepts the body itself or the body followed
by exactly one final newline.  (No body used below can match a newline
character, so these are the only matches.) -/
def dollarAnchored (body : List Char → Bool) (cs : List Char) : Bool :=
  body cs || (decide (cs.getLast? = some '\n') && body cs.dropLast)

/-- The source's IPv4 regex, with `$` as in Python. -/
def ipv4Match (s : String) : Bool :=
  dollarAnchored ipv4Core s.data

/-- Full-token match of one group `[0-9a-fA-F]{1,4}` of the source's IPv6
regex against a complete colon-delimited token. -/
def ipv6GroupMatch (cs : List Char) : Bool :=
  decide (1 ≤ cs.length) && decide (cs.length ≤ 4) && cs.all isHexCh

/-- The body of the first alternative of the source's IPv6 regex,
`(?:[0-9a-fA-F]{1,4}:){7}[0-9a-fA-F]{1,4}`: exactly eight colon-separated
hex groups. -/
def ipv6Core (cs : List Char) : Bool :=
  let parts := splitOnChar ':' cs
  decide (parts.length = 8) && parts.all ipv6GroupMatch

/-- The source's IPv6 regex
`^(?:[0-9a-fA-F]{1,4}:){7}[0-9a-fA-F]{1,4}$|^::1$|^::$`: three anchored
alternatives — eight hex groups, or one of the two literal degenerate
forms — each with `$` as in Python. -/
def ipv6Match (s : String) : Bool :=
  dollarAnchored ipv6Core s.data ||
  dollarAnchored (fun cs => decide (cs = "::1".data)) s.data ||
  dollarAnchored (fun cs => decide (cs = "::".data)) s.data

/-- `validate_ip_address` from the source: IPv4 regex or IPv6 regex. -/
def validate_ip_address (ip : String) : Bool :=
  ipv4Match ip || ipv6Match ip

/-- What one outbound HTTP GET (issued inside an adapter's `try` block) did,
abstracting the network and the remote service:
* `ok resp` — a 2xx response whose body parsed as the JSON object `resp`;
* `timeout excMsg` — `httpx.TimeoutException` was raised (`excMsg` models
  `str(e)`);
* `httpError code excMsg` — `response.raise_for_status()` raised
  `httpx.HTTPStatusError` for the non-2xx status `code`;
* `otherExc excMsg` — any other exception (connection error, body that is
  not valid JSON, ...). -/
inductive HttpOutcome where
  | ok (resp : Dict)
  | timeout (excMsg : String)
  | httpError (code : Nat) (excMsg : String)
  | otherExc (excMsg : String)

/-- `query_ip_location_ipapi` from the source (primary adapter,
ip-api.com), as a function of the address and of what its single HTTP GET
did.  Every branch of the Python `try/except` is translated; the function
is total, so no exception reaches the caller. -/
def query_ip_location_ipapi (ip : String) (h : HttpOutcome) : Dict :=
  match h with
  | HttpOutcome.ok data =>
    if dictGet data "status" = some (JVal.str "success") then
      [("success", JVal.bool true), ("ip", JVal.str ip),
       ("country", dictGetD data "country" (JVal.str "未知")),
       ("country_code", dictGetD data "countryCode" (JVal.str "")),
       ("region", dictGetD data "regionName" (JVal.str "未知")),
       ("region_code", dictGetD data "region" (JVal.str "")),
       ("city", dictGetD data "city" (JVal.str "未知")),
       ("zip_code", dictGetD data "zip" (JVal.str "")),
       ("latitude", dictGetD data "lat" (JVal.num 0)),
       ("longitude", dictGetD data "lon" (JVal.num 0)),
       ("timezone", dictGetD data "timezone" (JVal.str "")),
       ("isp", dictGetD data "isp" (JVal.str "未知")),
       ("organization", dictGetD data "org" (JVal.str "未知")),
       ("as_number", dictGetD data "as" (JVal.str "")),
       ("query_ip", dictGetD data "query" (JVal.str ip))]
    else
      [("success", JVal.bool false), ("ip", JVal.str ip),
       ("error", dictGetD data "message" (JVal.str "查询失败")),
       ("error_code", JVal.str "API_ERROR")]
  | HttpOutcome.timeout _ =>
      [("success", JVal.bool false), ("ip", JVal.str ip),
       ("error", JVal.str "请求超时，请稍后重试"),
       ("error_code", JVal.str "TIMEOUT")]
  | HttpOutcome.httpError code _ =>
      [("success", JVal.bool false), ("ip", JVal.str ip),
       ("error", JVal.str ("HTTP错误: " ++ toString code)),
       ("error_code", JVal.str "HTTP_ERROR")]
  | HttpOutcome.otherExc msg =>
      [("success", JVal.bool false), ("ip", JVal.str ip),
       ("error", JVal.str ("查询过程中发生错误: " ++ msg)),
       ("error_code", JVal.str "UNKNOWN_ERROR")]

/-- The decimal value of a digit string (used both for the IPv4 octet
analysis and for the integer part of the float parser). -/
def digitsVal (cs : List Char) : Nat :=
  cs.foldl (fun n c => 10 * n + (c.toNat - 48)) 0

/-- Model of Python `float(string)` restricted to the decimal forms
`[sign] digits`, `[sign] digits '.' digits`, `[sign] '.' digits`,
`[sign] digits '.'`; returns `none` exactly when `float()` raises
`ValueError` on such inputs.  The value is the truncated integer part
(floats are modelled by integers).  Exotic inputs Python would also accept
(exponents, `inf`, `nan`, surrounding whitespace, underscores) are not
modelled; no claim depends on which particular strings parse. -/
def pyFloatDigits? (cs : List Char) : Option Nat :=
  match splitOnChar '.' cs with
  | [a] => if !a.isEmpty && a.all isDigitCh then some (digitsVal a) else none
  | [a, b] =>
    if (!a.isEmpty || !b.isEmpty) && a.all isDigitCh && b.all isDigitCh then
      some (digitsVal a)
    else none
  | _ => none

/-- Model of Python `float(string)`, see `pyFloatDigits?`. -/
def pyFloatParse? (cs : List Char) : Option Int :=
  match cs with
  | '-' :: rest => (pyFloatDigits? rest).map (fun n => -(n : Int))
  | '+' :: rest => (pyFloatDigits? rest).map (fun n => (n : Int))
  | _ => (pyFloatDigits? cs).map (fun n => (n : Int))

/-- `float(location[i]) if len(location) > i and location[i] else 0` from
the backup adapter: `Except.error` models the `ValueError` that
`float()` raises on a malformed component. -/
def parseCoord (location : List (List Char)) (i : Nat) : Except String Int :=
  if decide (i < location.length) && !(location.getD i []).isEmpty then
    match pyFloatParse? (location.getD i []) with
    | some v => Except.ok v
    | none => Except.error "could not convert string to float"
  else Except.ok 0

/-- The failure dictionary built by the backup adapter's single `except`
handler; `e` models `str(e)` of the caught exception. -/
def backupFailureDict (ip e : String) : Dict :=
  [("success", JVal.bool false), ("ip", JVal.str ip),
   ("error", JVal.str ("备用API查询失败: " ++ e)),
   ("error_code", JVal.str "BACKUP_API_ERROR")]

/-- The body of the backup adapter after a 2xx JSON response:
`data.get("loc", "").split(",")`, the two guarded `float()` conversions,
and the success dictionary.  `Except.error` models an exception raised
while processing the body (`AttributeError` when `loc` is present but not
a string, `ValueError` from `float()`). -/
def backupParse (ip : String) (data : Dict) : Except String Dict :=
  match dictGetD data "loc" (JVal.str "") with
  | JVal.str loc => do
    let location := splitOnChar ',' loc.data
    let latitude ← parseCoord location 0
    let longitude ← parseCoord location 1
    Except.ok
      [("success", JVal.bool true), ("ip", JVal.str ip),
       ("country", dictGetD data "country" (JVal.str "未知")),
       ("region", dictGetD data "region" (JVal.str "未知")),
       ("city", dictGetD data "city" (JVal.str "未知")),
       ("postal", dictGetD data "postal" (JVal.str "")),
       ("latitude", JVal.num latitude),
       ("longitude", JVal.num longitude),
       ("timezone", dictGetD data "timezone" (JVal.str "")),
       ("isp", dictGetD data "org" (JVal.str "未知")),
       ("query_ip", dictGetD data "ip" (JVal.str ip))]
  | _ => Except.error "AttributeError: object has no attribute split"

/-- `query_ip_location_ipinfo` from the source (backup adapter,
ipinfo.io).  Its single `except Exception` handler catches every failure —
timeout, non-2xx status, and any exception raised while processing the
body — and builds the one undifferentiated failure dictionary; the
function is total, so no exception reaches the caller. -/
def query_ip_location_ipinfo (ip : String) (h : HttpOutcome) : Dict :=
  match h with
  | HttpOutcome.ok data =>
    match backupParse ip data with
    | Except.ok d => d
    | Except.error e => backupFailureDict ip e
  | HttpOutcome.timeout e => backupFailureDict ip e
  | HttpOutcome.httpError _ e => backupFailureDict ip e
  | HttpOutcome.otherExc e => backupFailureDict ip e

/-- `format_location_info` from the source, line by line.  The Python
`if not data.get("success"): return <failure block>` is rendered as the
outer `if` with the branches swapped; `+=` accumulation becomes `++`. -/
def format_location_info (data : Dict) : String :=
  if truthy (dictGet data "success") then
    "🌍 IP归属地查询结果\n\n" ++
    ("🔍 查询IP: " ++
       pyStr (dictGetD data "query_ip" (dictGetD data "ip" (JVal.str "未知"))) ++
     "\n\n" ++
     "📍 地理位置:\n" ++
     "  国家: " ++ pyStr (dictGetD data "country" (JVal.str "未知")) ++
     (if truthy (dictGet data "country_code") then
        " (" ++ pyStr (dictGetD data "country_code" JVal.null) ++ ")"
      else "") ++
     "\n" ++
     (if truthy (dictGet data "region") then
        "  省份/州: " ++ pyStr (dictGetD data "region" JVal.null) ++
        (if truthy (dictGet data "region_code") then
           " (" ++ pyStr (dictGetD data "region_code" JVal.null) ++ ")"
         else "") ++ "\n"
      else "") ++
     "  城市: " ++ pyStr (dictGetD data "city" (JVal.str "未知")) ++ "\n" ++
     (if truthy (dictGet data "zip_code") || truthy (dictGet data "postal") then
        "  邮编: " ++
        pyStr ((if truthy (dictGet data "zip_code") then dictGet data "zip_code"
                else dictGet data "postal").getD JVal.null) ++ "\n"
      else "") ++
     (let lat := dictGetD data "latitude" (JVal.num 0)
      let lon := dictGetD data "longitude" (JVal.num 0)
      if pyNeZero lat || pyNeZero lon then
        "\n🗺️ 坐标信息:\n" ++
        "  纬度: " ++ pyStr lat ++ "\n" ++
        "  经度: " ++ pyStr lon ++ "\n"
      else "") ++
     "\n🌐 网络信息:\n" ++
     "  ISP: " ++ pyStr (dictGetD data "isp" (JVal.str "未知")) ++ "\n" ++
     (if truthy (dictGet data "organization") then
        "  组织: " ++ pyStr (dictGetD data "organization" JVal.null) ++ "\n"
      else "") ++
     (if truthy (dictGet data "as_number") then
        "  AS号: " ++ pyStr (dictGetD data "as_number" JVal.null) ++ "\n"
      else "") ++
     (if truthy (dictGet data "timezone") then
        "\n⏰ 时区: " ++ pyStr (dictGetD data "timezone" JVal.null) ++ "\n"
      else ""))
  else
    "❌ IP查询失败\n" ++
    ("IP地址: " ++ pyStr (dictGetD data "ip" (JVal.str "未知")) ++
     ("\n错误信息: " ++ pyStr (dictGetD data "error" (JVal.str "未知错误"))))

/-- The fallback logic of `query_ip_location` after validation, with an
extra boolean recording whether the backup adapter was invoked.  The
first component is the dictionary handed to `format_location_info`. -/
def resolveLocationEv (ip : String) (hp hb : HttpOutcome) : Dict × Bool :=
  let result := query_ip_location_ipapi ip hp
  if truthy (dictGet result "success") then (result, false)
  else
    let backup_result := query_ip_location_ipinfo ip hb
    if truthy (dictGet backup_result "success") then (backup_result, true)
    else (result, true)

/-- The lookup record that `query_ip_location` surfaces for a validated
address (the spec's `resolveLocation`). -/
def resolveLocation (ip : String) (hp hb : HttpOutcome) : Dict :=
  (resolveLocationEv ip hp hb).1

/-- The invalid-format notice returned by `query_ip_location` for a
rejected address. -/
def invalidFormatMsg (ip_address : String) : String :=
  "❌ 无效的IP地址格式: " ++ ip_address ++ "\n" ++
  "请输入有效的IPv4或IPv6地址\n" ++
  "例如: 8.8.8.8 或 2001:4860:4860::8888"

/-- The `query_ip_location` tool from the source, instrumented with two
booleans recording whether the primary and the backup adapter were
invoked. -/
def query_ip_locationEv (ip_address : String) (hp hb : HttpOutcome) :
    String × Bool × Bool :=
  if validate_ip_address ip_address = false then
    (invalidFormatMsg ip_address, false, false)
  else
    let r := resolveLocationEv ip_address hp hb
    (format_location_info r.1, true, r.2)

/-- What the self-IP discovery GET (`https://api.ipify.org?format=json`)
did: a parsed JSON body, or an exception (`excMsg` models `str(e)`),
which the handler of `get_my_ip_location` turns into its failure
prefix. -/
inductive SelfIpOutcome where
  | ok (resp : Dict)
  | exc (excMsg : String)

/-- The `get_my_ip_location` tool from the source (the spec's
`resolveSelfLocation`), instrumented with two booleans recording whether
the primary and the backup geolocation adapters were invoked.  The only
statements inside its `try` block that can raise are the discovery GET
itself (abstracted by `hs`); the adapters and the formatter are total. -/
def get_my_ip_locationEv (hs : SelfIpOutcome) (hp hb : HttpOutcome) :
    String × Bool × Bool :=
  match hs with
  | SelfIpOutcome.exc msg => ("❌ 获取当前IP失败: " ++ msg, false, false)
  | SelfIpOutcome.ok ip_data =>
    let current_ip := dictGet ip_data "ip"
    if truthy current_ip = false then
      ("❌ 无法获取当前公网IP地址", false, false)
    else
      let ipStr := pyStr (current_ip.getD JVal.null)
      let r := resolveLocationEv ipStr hp hb
      ("🔍 当前公网IP查询结果\n\n" ++ format_location_info r.1, true, r.2)

/-! ## Spec-side grammar of valid addresses

The following definitions transcribe the specification's words for
`isValidAddress` — "a dotted-quad IPv4 literal (four decimal groups each
in 0–255, leading zeros permitted)", "a full 8-group colon-separated
hexadecimal IPv6 literal (each group 1–4 hex digits)", "or one of the two
literal forms ::1 and ::" — to be compared with the implementation
above.  A decimal group of a dotted-quad literal is a token of one to
three decimal digits whose value is at most 255. -/

/-- Spec side: one decimal group of a dotted-quad IPv4 literal — between
one and three decimal digits (so leading zeros are permitted), with value
in 0–255. -/
def specOctet (cs : List Char) : Bool :=
  decide (1 ≤ cs.length) && decide (cs.length ≤ 3) &&
  cs.all isDigitCh && decide (digitsVal cs ≤ 255)

/-- Spec side: a dotted-quad IPv4 literal — exactly four dot-separated
decimal groups. -/
def specIPv4Core (cs : List Char) : Bool :=
  let parts := splitOnChar '.' cs
  decide (parts.length = 4) && parts.all specOctet

/-- Spec side: one group of a full IPv6 literal — one to four hexadecimal
digits. -/
def specHexGroup (cs : List Char) : Bool :=
  decide (1 ≤ cs.length) && decide (cs.length ≤ 4) && cs.all isHexCh

/-- Spec side: a full 8-group colon-separated hexadecimal IPv6 literal. -/
def specIPv6Core (cs : List Char) : Bool :=
  let parts := splitOnChar ':' cs
  decide (parts.length = 8) && parts.all specHexGroup

/-- Spec side: the claim's grammar — a dotted-quad IPv4 literal, a full
8-group IPv6 literal, or one of the two literal forms `::1` and `::`. -/
def specAccepts (cs : List Char) : Bool :=
  specIPv4Core cs || specIPv6Core cs ||
  decide (cs = "::1".data) || decide (cs = "::".data)

/-- Spec side: the set of strings the claim says `isValidAddress`
accepts — exactly the grammar, with nothing before or after it. -/
def spec_isValidAddress (s : String) : Bool :=
  specAccepts s.data

/-- Spec side, amended for Python's `$`: the grammar optionally followed
by exactly one trailing newline. -/
def spec_isValidAddressNewline (s : String) : Bool :=
  specAccepts s.data ||
  (decide (s.data.getLast? = some '\n') && specAccepts s.data.dropLast)

/-- The newline-separated lines of a string, as character lists. -/
def linesOf (s : String) : List (List Char) :=
  splitOnChar '\n' s.data

end IpServer

namespace IpServer

/-! ## Helper lemmas -/

theorem boolEqOfIff {a b : Bool} (h : a = true ↔ b = true) : a = b := by
  cases a <;> cases b <;> simp_all

/-- Each full token of the IPv4 regex's octet group is exactly a decimal
group in the spec's sense: one to three digits with value at most 255. -/
theorem ipv4OctetMatch_eq_specOctet (cs : List Char) :
    ipv4OctetMatch cs = specOctet cs := by
  match cs with
  | [] => rfl
  | [a] =>
    apply boolEqOfIff
    simp only [ipv4OctetMatch, specOctet, isDigitCh, digitsVal,
      List.all_cons, List.all_nil, List.foldl, List.length_cons,
      List.length_nil, Bool.and_eq_true, Bool.or_eq_true,
      decide_eq_true_eq, and_true, true_and]
    omega
  | [a, b] =>
    apply boolEqOfIff
    simp only [ipv4OctetMatch, specOctet, isDigitCh, digitsVal,
      List.all_cons, List.all_nil, List.foldl, List.length_cons,
      List.length_nil, Bool.and_eq_true, Bool.or_eq_true,
      decide_eq_true_eq, and_true, true_and]
    omega
  | [a, b, c] =>
    apply boolEqOfIff
    simp only [ipv4OctetMatch, specOctet, isDigitCh, digitsVal,
      List.all_cons, List.all_nil, List.foldl, List.length_cons,
      List.length_nil, Bool.and_eq_true, Bool.or_eq_true,
      decide_eq_true_eq, and_true, true_and]
    omega
  | a :: b :: c :: d :: rest =>
    have hlen : ¬ ((a :: b :: c :: d :: rest).length ≤ 3) := by
      simp only [List.length_cons]
      omega
    simp [ipv4OctetMatch, specOctet, hlen]

theorem ipv4Core_eq_specIPv4Core (cs : List Char) :
    ipv4Core cs = specIPv4Core cs := by
  have h : ipv4OctetMatch = specOctet := funext ipv4OctetMatch_eq_specOctet
  unfold ipv4Core specIPv4Core
  rw [h]

theorem string_data_append (s t : String) :
    (s ++ t).data = s.data ++ t.data := rfl

theorem append_ne_empty_left (s t : String) (hs : s.data ≠ []) :
    s ++ t ≠ "" := by
  intro hc
  apply hs
  have hd : s.data ++ t.data = ([] : List Char) := by
    rw [← string_data_append, hc]
  exact (List.append_eq_nil.mp hd).1

theorem splitOnChar_ne_nil (sep : Char) (cs : List Char) :
    splitOnChar sep cs ≠ [] := by
  induction cs with
  | nil => simp [splitOnChar]
  | cons c cs ih =>
    simp only [splitOnChar]
    by_cases h : c = sep
    · simp [h]
    · rw [if_neg h]
      rcases hs : splitOnChar sep cs with _ | ⟨t, ts⟩
      · simp
      · simp

/-- A string splits into one more line than it has newline characters. -/
theorem splitOnChar_length (sep : Char) (cs : List Char) :
    (splitOnChar sep cs).length = cs.count sep + 1 := by
  induction cs with
  | nil => rfl
  | cons c cs ih =>
    by_cases h : c = sep
    · subst h
      simp [splitOnChar, List.count_cons, ih]
    · rcases hs : splitOnChar sep cs with _ | ⟨t, ts⟩
      · exact absurd hs (splitOnChar_ne_nil sep cs)
      · simp only [splitOnChar, if_neg h, hs]
        rw [hs] at ih
        simp only [List.length_cons, List.count_cons] at ih ⊢
        simp [h]
        omega

end IpServer

namespace IpServer

/-! ## The claims -/

/-- C3, counterexample to the claim as stated.  `validate_ip_address`
does not accept exactly the claim's grammar: Python's `$` also matches
just before a newline that ends the string, so the source accepts
`"8.8.8.8\n"`, which is not a dotted-quad IPv4 literal (nor any other
form of the grammar). -/
theorem validate_ip_address_not_exact :
    validate_ip_address "8.8.8.8\n" = true ∧
    spec_isValidAddress "8.8.8.8\n" = false := by
  decide

/-- C3, amended.  `validate_ip_address` returns `true` for exactly those
strings that are a dotted-quad IPv4 literal (four dot-separated decimal
groups of one to three digits, value 0–255, leading zeros permitted), a
full 8-group colon-separated hexadecimal IPv6 literal (each group 1–4
hex digits), or one of the two literal forms `"::1"` and `"::"` — in
each case optionally followed by exactly one trailing newline, which
Python's `$` anchor tolerates; every other string —
`"999.999.999.999"`, `"not-an-ip"`, an abbreviated IPv6 form such as
`"::ffff"` — is rejected. -/
theorem validate_ip_address_matches_spec_newline (s : String) :
    validate_ip_address s = spec_isValidAddressNewline s := by
  have h4 : ipv4Core = specIPv4Core := funext ipv4Core_eq_specIPv4Core
  have h6 : ipv6Core = specIPv6Core := rfl
  apply boolEqOfIff
  simp only [validate_ip_address, ipv4Match, ipv6Match, dollarAnchored,
    spec_isValidAddressNewline, specAccepts, h4, h6,
    Bool.or_eq_true, Bool.and_eq_true, decide_eq_true_eq]
  tauto

example : validate_ip_address "8.8.8.8" = true := by decide
example : validate_ip_address "999.999.999.999" = false := by decide
example : validate_ip_address "not-an-ip" = false := by decide
example : validate_ip_address "::ffff" = false := by decide
example : validate_ip_address "2001:4860:4860:0:0:0:0:8888" = true := by decide
example : validate_ip_address "::1" = true && validate_ip_address "::" = true := by decide
example : validate_ip_address "::1\n" = true && validate_ip_address "::\n" = true := by decide
example : validate_ip_address "8.8.8.8\n\n" = false := by decide
example : validate_ip_address "8.8.8.8\r\n" = false := by decide
example : validate_ip_address "\n" = false := by decide

/-- C6.  `format_location_info` is a total function of its input record
(it is defined by structural case analysis, so it cannot raise), and for
every record — either variant, any subset of fields present — it returns
a non-empty string. -/
theorem format_location_info_ne_empty (data : Dict) :
    format_location_info data ≠ "" := by
  unfold format_location_info
  by_cases h : truthy (dictGet data "success") = true
  · rw [if_pos h]
    exact append_ne_empty_left _ _ (by decide)
  · rw [if_neg h]
    exact append_ne_empty_left _ _ (by decide)

/-- C7, counterexample to the claim as stated.  The failure block rendered
by `format_location_info` is not a two-line block: on the primary
adapter's timeout failure for `"8.8.8.8"` it consists of three
newline-separated lines (a header line, the address line and the
error-message line). -/
theorem format_failure_block_not_two_lines :
    truthy (dictGet (query_ip_location_ipapi "8.8.8.8"
        (HttpOutcome.timeout "x")) "success") = false ∧
    (linesOf (format_location_info (query_ip_location_ipapi "8.8.8.8"
        (HttpOutcome.timeout "x")))).length ≠ 2 := by
  decide

/-- C7, amended.  For every Failure-variant record (success flag falsy)
carrying an address string and an error-message string free of newlines,
`format_location_info` renders a three-line failure block — a header
line, then a line with the requested address and a line with the error
message — and that block contains the address and the error message. -/
theorem format_failure_three_lines (d : Dict) (addr err : String)
    (hsucc : truthy (dictGet d "success") = false)
    (hip : dictGet d "ip" = some (JVal.str addr))
    (herr : dictGet d "error" = some (JVal.str err))
    (haddr : '\n' ∉ addr.data) (herrn : '\n' ∉ err.data) :
    format_location_info d =
      "❌ IP查询失败\n" ++
        ("IP地址: " ++ addr ++ ("\n错误信息: " ++ err)) ∧
    (linesOf (format_location_info d)).length = 3 := by
  have heq : format_location_info d =
      "❌ IP查询失败\n" ++
        ("IP地址: " ++ addr ++ ("\n错误信息: " ++ err)) := by
    simp [format_location_info, hsucc, dictGetD, hip, herr, pyStr]
  refine ⟨heq, ?_⟩
  rw [heq]
  unfold linesOf
  rw [splitOnChar_length]
  have ha : addr.data.count '\n' = 0 := List.count_eq_zero.mpr haddr
  have he : err.data.count '\n' = 0 := List.count_eq_zero.mpr herrn
  simp only [string_data_append, List.count_append, ha, he]
  decide

/-- Witness for `format_failure_three_lines` at the primary adapter's
timeout failure record for `"8.8.8.8"`. -/
theorem format_failure_three_lines_witness :
    truthy (dictGet (query_ip_location_ipapi "8.8.8.8"
        (HttpOutcome.timeout "x")) "success") = false ∧
    (format_location_info (query_ip_location_ipapi "8.8.8.8"
         (HttpOutcome.timeout "x")) =
       "❌ IP查询失败\n" ++
         ("IP地址: " ++ "8.8.8.8" ++
           ("\n错误信息: " ++ "请求超时，请稍后重试")) ∧
     (linesOf (format_location_info (query_ip_location_ipapi "8.8.8.8"
         (HttpOutcome.timeout "x")))).length = 3) :=
  ⟨by decide,
   format_failure_three_lines
     (query_ip_location_ipapi "8.8.8.8" (HttpOutcome.timeout "x"))
     "8.8.8.8" "请求超时，请稍后重试"
     (by decide) (by decide) (by decide) (by decide) (by decide)⟩

/-- C10.  Every record whose success flag is absent or falsy is rendered
as the Failure variant, never as a Success rendering and without raising:
the output is the failure block whose address field is
`data.get('ip', '未知')` and whose error field is
`data.get('error', '未知错误')` — so the placeholders `未知` and
`未知错误` stand in exactly when the corresponding field is missing, and
in particular the empty record renders as the fixed all-placeholder
failure block. -/
theorem format_missing_fields_placeholders (d : Dict)
    (hsucc : truthy (dictGet d "success") = false) :
    format_location_info d =
      "❌ IP查询失败\n" ++
        ("IP地址: " ++ pyStr (dictGetD d "ip" (JVal.str "未知")) ++
         ("\n错误信息: " ++ pyStr (dictGetD d "error" (JVal.str "未知错误")))) ∧
    (dictGet d "ip" = none → dictGet d "error" = none →
      format_location_info d =
        "❌ IP查询失败\nIP地址: 未知\n错误信息: 未知错误") := by
  have heq : format_location_info d =
      "❌ IP查询失败\n" ++
        ("IP地址: " ++ pyStr (dictGetD d "ip" (JVal.str "未知")) ++
         ("\n错误信息: " ++ pyStr (dictGetD d "error" (JVal.str "未知错误")))) := by
    simp [format_location_info, hsucc]
  refine ⟨heq, fun hip herr => ?_⟩
  rw [heq]
  simp only [dictGetD, hip, herr, Option.getD, pyStr]
  decide

/-- Witness for `format_missing_fields_placeholders` at the empty
record (success flag, address and error message all absent). -/
theorem format_missing_fields_placeholders_witness :
    truthy (dictGet ([] : Dict) "success") = false ∧
    format_location_info ([] : Dict) =
      "❌ IP查询失败\n" ++
        ("IP地址: " ++ pyStr (dictGetD [] "ip" (JVal.str "未知")) ++
         ("\n错误信息: " ++ pyStr (dictGetD [] "error" (JVal.str "未知错误")))) ∧
    format_location_info ([] : Dict) =
      "❌ IP查询失败\nIP地址: 未知\n错误信息: 未知错误" :=
  ⟨rfl, (format_missing_fields_placeholders [] rfl).1,
   (format_missing_fields_placeholders [] rfl).2 rfl rfl⟩

/-- C1.  The fallback orchestration of `query_ip_location` after
validation: if the primary adapter's result is a success it is returned;
if the primary fails and the backup succeeds, the backup's result is
returned unchanged; if both fail, the primary's failure record is
returned, so the reported `error` field equals the primary's error
message. -/
theorem resolveLocation_fallback (ip : String) (hp hb : HttpOutcome) :
    (truthy (dictGet (query_ip_location_ipapi ip hp) "success") = true →
      resolveLocation ip hp hb = query_ip_location_ipapi ip hp) ∧
    (truthy (dictGet (query_ip_location_ipapi ip hp) "success") = false →
      truthy (dictGet (query_ip_location_ipinfo ip hb) "success") = true →
      resolveLocation ip hp hb = query_ip_location_ipinfo ip hb) ∧
    (truthy (dictGet (query_ip_location_ipapi ip hp) "success") = false →
      truthy (dictGet (query_ip_location_ipinfo ip hb) "success") = false →
      resolveLocation ip hp hb = query_ip_location_ipapi ip hp ∧
      dictGet (resolveLocation ip hp hb) "error" =
        dictGet (query_ip_location_ipapi ip hp) "error") := by
  unfold resolveLocation resolveLocationEv
  refine ⟨fun h1 => by simp [h1],
          fun h1 h2 => by simp [h1, h2],
          fun h1 h2 => by simp [h1, h2]⟩

/-- Witness for `resolveLocation_fallback`: all three branches at
concrete adapter outcomes (primary success; primary timeout with backup
success; double failure). -/
theorem resolveLocation_fallback_witness :
    truthy (dictGet (query_ip_location_ipapi "8.8.8.8"
        (HttpOutcome.ok [("status", JVal.str "success")])) "success") = true ∧
    resolveLocation "8.8.8.8" (HttpOutcome.ok [("status", JVal.str "success")])
        (HttpOutcome.timeout "x") =
      query_ip_location_ipapi "8.8.8.8"
        (HttpOutcome.ok [("status", JVal.str "success")]) ∧
    resolveLocation "8.8.8.8" (HttpOutcome.timeout "a") (HttpOutcome.ok []) =
      query_ip_location_ipinfo "8.8.8.8" (HttpOutcome.ok []) ∧
    (resolveLocation "8.8.8.8" (HttpOutcome.timeout "a") (HttpOutcome.timeout "b") =
       query_ip_location_ipapi "8.8.8.8" (HttpOutcome.timeout "a") ∧
     dictGet (resolveLocation "8.8.8.8" (HttpOutcome.timeout "a")
         (HttpOutcome.timeout "b")) "error" =
       dictGet (query_ip_location_ipapi "8.8.8.8" (HttpOutcome.timeout "a")) "error") :=
  ⟨by decide,
   (resolveLocation_fallback "8.8.8.8" (HttpOutcome.ok [("status", JVal.str "success")])
     (HttpOutcome.timeout "x")).1 (by decide),
   (resolveLocation_fallback "8.8.8.8" (HttpOutcome.timeout "a")
     (HttpOutcome.ok [])).2.1 (by decide) (by decide),
   (resolveLocation_fallback "8.8.8.8" (HttpOutcome.timeout "a")
     (HttpOutcome.timeout "b")).2.2 (by decide) (by decide)⟩

/-- C2.  When the primary adapter's result is a success, the backup
adapter is never invoked (the instrumentation bit is `false`) and the
outcome of the whole call does not depend on the backup adapter's
behaviour at all. -/
theorem resolveLocation_primary_success_no_backup (ip : String)
    (hp hb hb' : HttpOutcome)
    (h : truthy (dictGet (query_ip_location_ipapi ip hp) "success") = true) :
    (resolveLocationEv ip hp hb).2 = false ∧
    resolveLocationEv ip hp hb = resolveLocationEv ip hp hb' := by
  unfold resolveLocationEv
  simp [h]

/-- Witness for `resolveLocation_primary_success_no_backup` at a concrete
primary success, with two different backup behaviours. -/
theorem resolveLocation_primary_success_no_backup_witness :
    truthy (dictGet (query_ip_location_ipapi "8.8.8.8"
        (HttpOutcome.ok [("status", JVal.str "success")])) "success") = true ∧
    ((resolveLocationEv "8.8.8.8" (HttpOutcome.ok [("status", JVal.str "success")])
        (HttpOutcome.timeout "x")).2 = false ∧
     resolveLocationEv "8.8.8.8" (HttpOutcome.ok [("status", JVal.str "success")])
        (HttpOutcome.timeout "x") =
       resolveLocationEv "8.8.8.8" (HttpOutcome.ok [("status", JVal.str "success")])
        (HttpOutcome.otherExc "boom")) :=
  ⟨by decide,
   resolveLocation_primary_success_no_backup "8.8.8.8"
     (HttpOutcome.ok [("status", JVal.str "success")])
     (HttpOutcome.timeout "x") (HttpOutcome.otherExc "boom") (by decide)⟩

/-- C4.  The primary adapter maps each failure mode to exactly one error
kind and, being total, raises nothing: a 2xx response whose status field
does not say `success` gives `API_ERROR` with the provider's message or
the generic `查询失败` text; a timeout gives `TIMEOUT`; a non-2xx status
gives `HTTP_ERROR` with the status code in the message; any other
exception gives `UNKNOWN_ERROR`. -/
theorem query_ip_location_ipapi_error_mapping (ip excMsg : String)
    (code : Nat) (resp : Dict) :
    (dictGet (query_ip_location_ipapi ip (HttpOutcome.timeout excMsg))
        "error_code" = some (JVal.str "TIMEOUT") ∧
     dictGet (query_ip_location_ipapi ip (HttpOutcome.timeout excMsg))
        "error" = some (JVal.str "请求超时，请稍后重试") ∧
     truthy (dictGet (query_ip_location_ipapi ip (HttpOutcome.timeout excMsg))
        "success") = false) ∧
    (dictGet (query_ip_location_ipapi ip (HttpOutcome.httpError code excMsg))
        "error_code" = some (JVal.str "HTTP_ERROR") ∧
     dictGet (query_ip_location_ipapi ip (HttpOutcome.httpError code excMsg))
        "error" = some (JVal.str ("HTTP错误: " ++ toString code)) ∧
     truthy (dictGet (query_ip_location_ipapi ip (HttpOutcome.httpError code excMsg))
        "success") = false) ∧
    (dictGet (query_ip_location_ipapi ip (HttpOutcome.otherExc excMsg))
        "error_code" = some (JVal.str "UNKNOWN_ERROR") ∧
     dictGet (query_ip_location_ipapi ip (HttpOutcome.otherExc excMsg))
        "error" = some (JVal.str ("查询过程中发生错误: " ++ excMsg)) ∧
     truthy (dictGet (query_ip_location_ipapi ip (HttpOutcome.otherExc excMsg))
        "success") = false) ∧
    (dictGet resp "status" ≠ some (JVal.str "success") →
      dictGet (query_ip_location_ipapi ip (HttpOutcome.ok resp))
          "error_code" = some (JVal.str "API_ERROR") ∧
      dictGet (query_ip_location_ipapi ip (HttpOutcome.ok resp))
          "error" = some (dictGetD resp "message" (JVal.str "查询失败")) ∧
      truthy (dictGet (query_ip_location_ipapi ip (HttpOutcome.ok resp))
          "success") = false) := by
  refine ⟨⟨rfl, rfl, rfl⟩, ⟨rfl, rfl, rfl⟩, ⟨rfl, rfl, rfl⟩, fun h => ?_⟩
  simp only [query_ip_location_ipapi]
  rw [if_neg h]
  exact ⟨rfl, rfl, rfl⟩

/-- Witness for `query_ip_location_ipapi_error_mapping`: the `API_ERROR`
branch at a 2xx response without a status field (the other branches are
hypothesis-free). -/
theorem query_ip_location_ipapi_error_mapping_witness :
    dictGet ([] : Dict) "status" ≠ some (JVal.str "success") ∧
    (dictGet (query_ip_location_ipapi "8.8.8.8" (HttpOutcome.ok []))
        "error_code" = some (JVal.str "API_ERROR") ∧
     dictGet (query_ip_location_ipapi "8.8.8.8" (HttpOutcome.ok []))
        "error" = some (JVal.str "查询失败") ∧
     truthy (dictGet (query_ip_location_ipapi "8.8.8.8" (HttpOutcome.ok []))
        "success") = false) :=
  ⟨by decide,
   (query_ip_location_ipapi_error_mapping "8.8.8.8" "e" 404 []).2.2.2 (by decide)⟩

/-- C5.  The backup adapter collapses every failure — timeout, non-2xx
status, an exception while parsing the body, any other exception — into
the one undifferentiated `BACKUP_API_ERROR` failure record and, being
total, raises nothing. -/
theorem query_ip_location_ipinfo_collapses_failures (ip excMsg e : String)
    (code : Nat) (resp : Dict) :
    (dictGet (query_ip_location_ipinfo ip (HttpOutcome.timeout excMsg))
        "error_code" = some (JVal.str "BACKUP_API_ERROR") ∧
     truthy (dictGet (query_ip_location_ipinfo ip (HttpOutcome.timeout excMsg))
        "success") = false) ∧
    (dictGet (query_ip_location_ipinfo ip (HttpOutcome.httpError code excMsg))
        "error_code" = some (JVal.str "BACKUP_API_ERROR") ∧
     truthy (dictGet (query_ip_location_ipinfo ip (HttpOutcome.httpError code excMsg))
        "success") = false) ∧
    (dictGet (query_ip_location_ipinfo ip (HttpOutcome.otherExc excMsg))
        "error_code" = some (JVal.str "BACKUP_API_ERROR") ∧
     truthy (dictGet (query_ip_location_ipinfo ip (HttpOutcome.otherExc excMsg))
        "success") = false) ∧
    (backupParse ip resp = Except.error e →
      dictGet (query_ip_location_ipinfo ip (HttpOutcome.ok resp))
          "error_code" = some (JVal.str "BACKUP_API_ERROR") ∧
      dictGet (query_ip_location_ipinfo ip (HttpOutcome.ok resp))
          "error" = some (JVal.str ("备用API查询失败: " ++ e)) ∧
      truthy (dictGet (query_ip_location_ipinfo ip (HttpOutcome.ok resp))
          "success") = false) := by
  refine ⟨⟨rfl, rfl⟩, ⟨rfl, rfl⟩, ⟨rfl, rfl⟩, fun h => ?_⟩
  simp only [query_ip_location_ipinfo]
  rw [h]
  exact ⟨rfl, rfl, rfl⟩

/-- Witness for `query_ip_location_ipinfo_collapses_failures`: the
body-parse-error branch at a 2xx response whose `loc` field is a number,
on which `.split` raises. -/
theorem query_ip_location_ipinfo_collapses_failures_witness :
    backupParse "8.8.8.8" [("loc", JVal.num 3)] =
      Except.error "AttributeError: object has no attribute split" ∧
    (dictGet (query_ip_location_ipinfo "8.8.8.8"
        (HttpOutcome.ok [("loc", JVal.num 3)]))
        "error_code" = some (JVal.str "BACKUP_API_ERROR") ∧
     dictGet (query_ip_location_ipinfo "8.8.8.8"
        (HttpOutcome.ok [("loc", JVal.num 3)]))
        "error" = some (JVal.str
          ("备用API查询失败: " ++ "AttributeError: object has no attribute split")) ∧
     truthy (dictGet (query_ip_location_ipinfo "8.8.8.8"
        (HttpOutcome.ok [("loc", JVal.num 3)])) "success") = false) :=
  ⟨rfl,
   (query_ip_location_ipinfo_collapses_failures "8.8.8.8" "e"
     "AttributeError: object has no attribute split" 404
     [("loc", JVal.num 3)]).2.2.2 rfl⟩

/-- C8.  For every address the validator rejects, `query_ip_location`
returns the invalid-format notice and invokes neither adapter (both
instrumentation bits are `false`), whatever the two adapters would have
done. -/
theorem query_ip_location_invalid_address (ip_address : String)
    (hp hb : HttpOutcome) (h : validate_ip_address ip_address = false) :
    query_ip_locationEv ip_address hp hb =
      (invalidFormatMsg ip_address, false, false) := by
  unfold query_ip_locationEv
  rw [if_pos h]

/-- Witness for `query_ip_location_invalid_address` at `"not-an-ip"`. -/
theorem query_ip_location_invalid_address_witness :
    validate_ip_address "not-an-ip" = false ∧
    query_ip_locationEv "not-an-ip" (HttpOutcome.timeout "a")
        (HttpOutcome.timeout "b") =
      (invalidFormatMsg "not-an-ip", false, false) :=
  ⟨by decide,
   query_ip_location_invalid_address "not-an-ip" (HttpOutcome.timeout "a")
     (HttpOutcome.timeout "b") (by decide)⟩

/-- C9.  If the self-IP discovery call raises, or returns a body whose
`ip` field is missing or falsy, `get_my_ip_location` returns its failure
message immediately and invokes neither geolocation adapter (both
instrumentation bits are `false`); no exception escapes, the function
being total.  The discovery-exception branch returns the fixed prefix
`❌ 获取当前IP失败: ` followed by the exception text; the missing-address
branch returns the fixed string `❌ 无法获取当前公网IP地址`. -/
theorem get_my_ip_location_discovery_failure (excMsg : String)
    (resp : Dict) (hp hb : HttpOutcome) :
    (get_my_ip_locationEv (SelfIpOutcome.exc excMsg) hp hb =
       ("❌ 获取当前IP失败: " ++ excMsg, false, false)) ∧
    (truthy (dictGet resp "ip") = false →
      get_my_ip_locationEv (SelfIpOutcome.ok resp) hp hb =
        ("❌ 无法获取当前公网IP地址", false, false)) := by
  refine ⟨rfl, fun h => ?_⟩
  simp [get_my_ip_locationEv, h]

/-- Witness for `get_my_ip_location_discovery_failure`: a simulated
network error, and a discovery body without an `ip` field. -/
theorem get_my_ip_location_discovery_failure_witness :
    truthy (dictGet ([] : Dict) "ip") = false ∧
    get_my_ip_locationEv (SelfIpOutcome.exc "network error")
        (HttpOutcome.timeout "t") (HttpOutcome.timeout "u") =
      ("❌ 获取当前IP失败: network error", false, false) ∧
    get_my_ip_locationEv (SelfIpOutcome.ok [])
        (HttpOutcome.timeout "t") (HttpOutcome.timeout "u") =
      ("❌ 无法获取当前公网IP地址", false, false) :=
  ⟨rfl,
   (get_my_ip_location_discovery_failure "network error" []
     (HttpOutcome.timeout "t") (HttpOutcome.timeout "u")).1,
   (get_my_ip_location_discovery_failure "network error" []
     (HttpOutcome.timeout "t") (HttpOutcome.timeout "u")).2 rfl⟩

end IpServer
